import Mathlib

/-!
Verification of the WAQR attendance-tracking core against its source.

The development shallowly embeds the JavaScript sources of the repository:

* `OTPService` (time-windowed OTP generation and validation, built on
  HMAC-SHA256 from node's `crypto`, which is embedded here in full from
  FIPS 180-4 / RFC 2104);
* the request validators and the `POST /api/checkin` route of
  `express.server.js`;
* `CheckInRepository.recordCheckIn` together with the `check_ins` table
  CHECK constraint of `schema.js`;
* the configuration bootstrap (`schema.js` / `init-db.js`,
  `INSERT OR IGNORE` semantics) and `initializeQRServices`;
* `WhatsAppService` (URL rendering and OTP extraction), including models
  of `encodeURIComponent`, `URLSearchParams` decoding and the
  first-match semantics of the extraction regex.

Modelling conventions: machine numbers are `Nat`/`Int` (timestamps are
integer milliseconds; `Math.floor(t / w)` is `Int.fdiv`); JS strings are
Lean `String`s or `List Char` (ASCII-faithful; character classes are
defined numerically to match the JS semantics); fallible JS code returns
`Except`/`Option`; the mutable diagnostic counters of the services are
omitted as they never influence results.
-/

/-! ### Bytes, 32-bit words and SHA-256 (FIPS 180-4), as used by node's
`createHmac('sha256', key).update(msg).digest('hex')` -/

/-- Truncate to a 32-bit word. -/
def w32 (x : Nat) : Nat := x % 4294967296

/-- 32-bit rotate right. -/
def rotr (n x : Nat) : Nat := w32 ((x >>> n) ||| (x <<< (32 - n)))

/-- SHA-256 `Ch` function (bitwise complement via xor with all-ones). -/
def shaCh (e f g : Nat) : Nat := (e &&& f) ^^^ ((4294967295 ^^^ e) &&& g)

/-- SHA-256 `Maj` function. -/
def shaMaj (a b c : Nat) : Nat := (a &&& b) ^^^ (a &&& c) ^^^ (b &&& c)

/-- SHA-256 big Sigma0. -/
def bigSigma0 (a : Nat) : Nat := rotr 2 a ^^^ rotr 13 a ^^^ rotr 22 a

/-- SHA-256 big Sigma1. -/
def bigSigma1 (e : Nat) : Nat := rotr 6 e ^^^ rotr 11 e ^^^ rotr 25 e

/-- SHA-256 small sigma0. -/
def smallSigma0 (x : Nat) : Nat := rotr 7 x ^^^ rotr 18 x ^^^ (x >>> 3)

/-- SHA-256 small sigma1. -/
def smallSigma1 (x : Nat) : Nat := rotr 17 x ^^^ rotr 19 x ^^^ (x >>> 10)

/-- The 64 SHA-256 round constants. -/
def shaK : List Nat :=
  [1116352408, 1899447441, 3049323471, 3921009573, 961987163, 1508970993,
   2453635748, 2870763221, 3624381080, 310598401, 607225278, 1426881987,
   1925078388, 2162078206, 2614888103, 3248222580, 3835390401, 4022224774,
   264347078, 604807628, 770255983, 1249150122, 1555081692, 1996064986,
   2554220882, 2821834349, 2952996808, 3210313671, 3336571891, 3584528711,
   113926993, 338241895, 666307205, 773529912, 1294757372, 1396182291,
   1695183700, 1986661051, 2177026350, 2456956037, 2730485921, 2820302411,
   3259730800, 3345764771, 3516065817, 3600352804, 4094571909, 275423344,
   430227734, 506948616, 659060556, 883997877, 958139571, 1322822218,
   1537002063, 1747873779, 1955562222, 2024104815, 2227730452, 2361852424,
   2428436474, 2756734187, 3204031479, 3329325298]

/-- The SHA-256 working state: eight 32-bit words. -/
structure Hash8 where
  a : Nat
  b : Nat
  c : Nat
  d : Nat
  e : Nat
  f : Nat
  g : Nat
  h : Nat
deriving DecidableEq

/-- SHA-256 initial hash value. -/
def initHash : Hash8 :=
  ⟨1779033703, 3144134277, 1013904242, 2773480762,
   1359893119, 2600822924, 528734635, 1541459225⟩

/-- Big-endian bytes of a 32-bit word. -/
def wordBytes (x : Nat) : List Nat :=
  [(x >>> 24) % 256, (x >>> 16) % 256, (x >>> 8) % 256, x % 256]

/-- The 32 digest bytes of a final SHA-256 state. -/
def Hash8.toBytes (s : Hash8) : List Nat :=
  wordBytes s.a ++ wordBytes s.b ++ wordBytes s.c ++ wordBytes s.d ++
  wordBytes s.e ++ wordBytes s.f ++ wordBytes s.g ++ wordBytes s.h

/-- The 16 big-endian 32-bit words of a 64-byte block. -/
def blockWords (block : List Nat) : List Nat :=
  (List.range 16).map fun i =>
    (block.getD (4 * i) 0) <<< 24 ||| (block.getD (4 * i + 1) 0) <<< 16 |||
    (block.getD (4 * i + 2) 0) <<< 8 ||| block.getD (4 * i + 3) 0

/-- Message schedule: extend 16 words to 64. -/
def schedule (ws16 : List Nat) : List Nat :=
  (List.range 64).foldl
    (fun acc i =>
      if i < 16 then acc ++ [ws16.getD i 0]
      else acc ++ [w32 (smallSigma1 (acc.getD (i - 2) 0) + acc.getD (i - 7) 0 +
                        smallSigma0 (acc.getD (i - 15) 0) + acc.getD (i - 16) 0)])
    []

/-- One SHA-256 compression round. -/
def roundStep (st : Nat × Nat × Nat × Nat × Nat × Nat × Nat × Nat) (kw : Nat × Nat) :
    Nat × Nat × Nat × Nat × Nat × Nat × Nat × Nat :=
  let (a, b, c, d, e, f, g, h) := st
  let t1 := w32 (h + bigSigma1 e + shaCh e f g + kw.1 + kw.2)
  let t2 := w32 (bigSigma0 a + shaMaj a b c)
  (w32 (t1 + t2), a, b, c, w32 (d + t1), e, f, g)

/-- Process one 64-byte block. -/
def processBlock (s : Hash8) (block : List Nat) : Hash8 :=
  let ws := schedule (blockWords block)
  let (a, b, c, d, e, f, g, h) :=
    (shaK.zip ws).foldl roundStep (s.a, s.b, s.c, s.d, s.e, s.f, s.g, s.h)
  ⟨w32 (s.a + a), w32 (s.b + b), w32 (s.c + c), w32 (s.d + d),
   w32 (s.e + e), w32 (s.f + f), w32 (s.g + g), w32 (s.h + h)⟩

/-- SHA-256 padding: append 0x80, zeros, and the 64-bit big-endian bit length. -/
def padMsg (msg : List Nat) : List Nat :=
  let L := msg.length
  let zeros := (55 + 64 - L % 64) % 64
  let bitLen := 8 * L
  msg ++ [0x80] ++ List.replicate zeros 0 ++
    (List.range 8).map fun i => (bitLen >>> (8 * (7 - i))) % 256

/-- Split a padded message into 64-byte blocks. -/
def blocks64 (l : List Nat) : List (List Nat) :=
  (List.range (l.length / 64)).map fun i => (l.drop (64 * i)).take 64

/-- SHA-256 digest (32 bytes) of a byte list. -/
def sha256 (msg : List Nat) : List Nat :=
  ((blocks64 (padMsg msg)).foldl processBlock initHash).toBytes

/-- HMAC-SHA256 (RFC 2104) over byte lists. -/
def hmacSha256 (key msg : List Nat) : List Nat :=
  let k0 := if 64 < key.length then sha256 key else key
  let kpad := k0 ++ List.replicate (64 - k0.length) 0
  sha256 ((kpad.map fun b => b ^^^ 0x5c) ++
          sha256 ((kpad.map fun b => b ^^^ 0x36) ++ msg))

/-! ### Hex rendering (node's `.digest('hex')` is lowercase hex) -/

/-- The lowercase hex alphabet. -/
def hexLowChars : List Char := "0123456789abcdef".data

/-- The uppercase hex alphabet, the alphabet of generated OTPs. -/
def hexUpChars : List Char := "0123456789ABCDEF".data

/-- One lowercase hex digit. -/
def hexLowDigit (n : Nat) : Char := hexLowChars.getD (n % 16) '0'

/-- Lowercase hex string (as a char list) of a byte list. -/
def hexOfBytes (l : List Nat) : List Char :=
  l.flatMap fun b => [hexLowDigit (b / 16), hexLowDigit b]

/-- UTF-8 bytes of a string (JS strings are hashed as their UTF-8 bytes). -/
def strBytes (s : String) : List Nat := s.toUTF8.toList.map (·.toNat)

/-! ### ASCII character classes and JS string primitives, defined numerically
to match the JS semantics used by the sources -/

/-- JS whitespace as relevant to `String.prototype.trim` (ASCII part). -/
def isSpaceCh (c : Char) : Bool :=
  c.toNat = 32 || c.toNat = 9 || c.toNat = 10 || c.toNat = 11 ||
  c.toNat = 12 || c.toNat = 13

/-- ASCII `toUpperCase` on one character, as JS applies it. -/
def jsToUpper (c : Char) : Char :=
  if 97 ≤ c.toNat ∧ c.toNat ≤ 122 then Char.ofNat (c.toNat - 32) else c

/-- The regex class `[0-9]`. -/
def isDigitCh (c : Char) : Bool := 48 ≤ c.toNat && c.toNat ≤ 57

/-- The regex class `[A-Z0-9]`. -/
def isUpperAlnum (c : Char) : Bool :=
  (65 ≤ c.toNat && c.toNat ≤ 90) || isDigitCh c

/-- The regex class `[A-Za-z0-9]`. -/
def isAlnumCh (c : Char) : Bool :=
  (65 ≤ c.toNat && c.toNat ≤ 90) || (97 ≤ c.toNat && c.toNat ≤ 122) || isDigitCh c

/-- JS `trim` on a char list. -/
def jsTrimL (l : List Char) : List Char :=
  ((l.dropWhile isSpaceCh).reverse.dropWhile isSpaceCh).reverse

/-- `otp.trim().toUpperCase()`, the normalisation applied throughout the code. -/
def jsNormalize (s : String) : String :=
  String.mk ((jsTrimL s.data).map jsToUpper)

/-- JS `a || b` for an optional/empty string configuration value. -/
def jsOr (o : Option String) (d : String) : String :=
  match o with
  | some s => if s = "" then d else s
  | none => d

/-! ### `OTPService` (qr-server/services/otpService.js) -/

/-- Derived code for a time slot: the first 6 hex characters of
HMAC-SHA256(secret, decimal string of the slot), upper-cased — the body of
`generateOTP` after the slot computation, and the `deriveCode` of the spec. -/
def deriveCode (secret : String) (slot : Int) : String :=
  String.mk (((hexOfBytes (hmacSha256 (strBytes secret) (strBytes (toString slot)))).take 6).map jsToUpper)

/-- `generateOTP(timestamp)`: rejects non-positive timestamps, otherwise
derives the code of slot `Math.floor(timestamp / timeWindow)`. -/
def generateOTPE (secret : String) (w : Int) (t : Int) : Except String String :=
  if t ≤ 0 then .error "Invalid timestamp provided"
  else .ok (deriveCode secret (t.fdiv w))

/-- Reasons returned by `validateOTP`. -/
inductive Reason
  | INVALID_FORMAT
  | CURRENT_WINDOW
  | PREVIOUS_WINDOW
  | FUTURE_OTP
  | EXPIRED_OR_INVALID
  | VALIDATION_ERROR
deriving DecidableEq, Repr

/-- The result object `{valid, reason, message, timeWindow?}` of `validateOTP`. -/
structure VResult where
  valid : Bool
  reason : Reason
  message : String
  timeWindow : Option String
deriving DecidableEq, Repr

/-- The JS argument passed for the OTP: a string, or any non-string value
(null, undefined, numbers, ... — all of which fail the
`!otp || typeof otp !== 'string'` guard). -/
inductive JSVal
  | nonString
  | str (s : String)
deriving DecidableEq

/-- `validateOTP(otp, timestamp)`. `ts = none` models a non-numeric timestamp
argument; a non-positive or non-numeric timestamp is replaced by `now`
(`Date.now()`). The catch-all of the source maps any internal `generateOTP`
throw to `VALIDATION_ERROR`. -/
def validateOTP (secret : String) (w : Int) (otp : JSVal) (ts : Option Int) (now : Int) : VResult :=
  match otp with
  | .nonString => ⟨false, .INVALID_FORMAT, "OTP must be a non-empty string", none⟩
  | .str s =>
    if s = "" then ⟨false, .INVALID_FORMAT, "OTP must be a non-empty string", none⟩
    else
      let t := match ts with
        | some t0 => if t0 ≤ 0 then now else t0
        | none => now
      let n := jsNormalize s
      if n.length ≠ 6 then ⟨false, .INVALID_FORMAT, "OTP must be exactly 6 characters", none⟩
      else
        match generateOTPE secret w t with
        | .error _ => ⟨false, .VALIDATION_ERROR, "OTP validation failed due to system error", none⟩
        | .ok cur =>
          if n = cur then ⟨true, .CURRENT_WINDOW, "OTP is valid (current window)", some "current"⟩
          else
            match generateOTPE secret w (t - w) with
            | .error _ => ⟨false, .VALIDATION_ERROR, "OTP validation failed due to system error", none⟩
            | .ok prev =>
              if n = prev then ⟨true, .PREVIOUS_WINDOW, "OTP is valid (previous window)", some "previous"⟩
              else
                match generateOTPE secret w (t + w) with
                | .error _ => ⟨false, .VALIDATION_ERROR, "OTP validation failed due to system error", none⟩
                | .ok fut =>
                  if n = fut then ⟨false, .FUTURE_OTP, "OTP is from future time window", none⟩
                  else ⟨false, .EXPIRED_OR_INVALID, "OTP is expired or invalid", none⟩

/-! ### Basic facts about the digest and the code alphabet -/

/-- A SHA-256 digest is exactly 32 bytes. -/
theorem sha256_length (msg : List Nat) : (sha256 msg).length = 32 := by
  simp [sha256, Hash8.toBytes, wordBytes]

/-- Every hex digit is drawn from the lowercase hex alphabet. -/
theorem hexLowDigit_mem (n : Nat) : hexLowDigit n ∈ hexLowChars := by
  have h : n % 16 < hexLowChars.length := by
    have hlen : hexLowChars.length = 16 := rfl
    omega
  rw [hexLowDigit, List.getD_eq_getElem _ _ h]
  exact List.getElem_mem h

/-- Every character of a hex rendering is a lowercase hex digit. -/
theorem hexOfBytes_mem {c : Char} {l : List Nat} (h : c ∈ hexOfBytes l) :
    c ∈ hexLowChars := by
  rw [hexOfBytes, List.mem_flatMap] at h
  obtain ⟨b, _, hc⟩ := h
  simp only [List.mem_cons, List.not_mem_nil, or_false] at hc
  rcases hc with rfl | rfl
  · exact hexLowDigit_mem _
  · exact hexLowDigit_mem _

/-- Upper-casing a lowercase hex digit lands in the OTP alphabet. -/
theorem jsToUpper_hex {c : Char} (h : c ∈ hexLowChars) : jsToUpper c ∈ hexUpChars := by
  have key : ∀ x ∈ hexLowChars, jsToUpper x ∈ hexUpChars := by decide
  exact key c h

/-- The length of a hex rendering. -/
theorem hexOfBytes_length (l : List Nat) : (hexOfBytes l).length = 2 * l.length := by
  induction l with
  | nil => rfl
  | cons b t ih => simp [hexOfBytes] at ih ⊢; omega

/-- A derived code is 6 characters long. -/
theorem deriveCode_length (secret : String) (slot : Int) :
    (deriveCode secret slot).length = 6 := by
  have h32 : (hmacSha256 (strBytes secret) (strBytes (toString slot))).length = 32 :=
    sha256_length _
  have hlen := hexOfBytes_length (hmacSha256 (strBytes secret) (strBytes (toString slot)))
  rw [h32] at hlen
  show (String.mk _).length = 6
  simp [String.length, List.length_take, hlen]

/-- Every character of a derived code is an uppercase hex digit. -/
theorem deriveCode_mem {c : Char} {secret : String} {slot : Int}
    (h : c ∈ (deriveCode secret slot).data) : c ∈ hexUpChars := by
  rw [deriveCode] at h
  simp only [List.mem_map] at h
  obtain ⟨c0, hc0, rfl⟩ := h
  exact jsToUpper_hex (hexOfBytes_mem (List.mem_of_mem_take hc0))

/-- A derived code never equals a string containing a character outside the
uppercase hex alphabet, such as `Z`. -/
theorem deriveCode_ne_ZZZZZZ (secret : String) (slot : Int) :
    deriveCode secret slot ≠ "ZZZZZZ" := by
  intro h
  have hz : 'Z' ∈ (deriveCode secret slot).data := by
    rw [h]; decide
  have := deriveCode_mem hz
  exact absurd this (by decide)

/-- Floor-division shift: one window earlier is one slot earlier. -/
theorem fdiv_sub_window (t w : Int) (h : 0 < w) : (t - w).fdiv w = t.fdiv w - 1 := by
  rw [Int.fdiv_eq_ediv _ (le_of_lt h), Int.fdiv_eq_ediv _ (le_of_lt h)]
  have h2 := Int.add_mul_ediv_right t (-1) (ne_of_gt h)
  simp only [neg_one_mul] at h2
  rw [← Int.sub_eq_add_neg] at h2
  rw [h2]
  ring

/-- Floor-division shift: one window later is one slot later. -/
theorem fdiv_add_window (t w : Int) (h : 0 < w) : (t + w).fdiv w = t.fdiv w + 1 := by
  rw [Int.fdiv_eq_ediv _ (le_of_lt h), Int.fdiv_eq_ediv _ (le_of_lt h)]
  have h2 := Int.add_mul_ediv_right t 1 (ne_of_gt h)
  simpa using h2

/-! ### Claim theorems for the OTP engine -/

/-- C2: for every secret, window in `[30000, 300000]` and positive timestamp,
`generateOTP` yields exactly the uppercase of the first 6 hex characters of
HMAC-SHA256(secret, decimal string of `floor(t/w)`) (which is `deriveCode`);
the code is 6 characters over `[0-9A-F]`, and equal secret and slot give an
equal code. -/
theorem generateOTP_derivation (secret : String) (w t : Int)
    (hw1 : 30000 ≤ w) (hw2 : w ≤ 300000) (ht : 0 < t) :
    generateOTPE secret w t = .ok (deriveCode secret (t.fdiv w)) ∧
    (deriveCode secret (t.fdiv w)).length = 6 ∧
    (∀ c ∈ (deriveCode secret (t.fdiv w)).data, c ∈ hexUpChars) ∧
    ∀ (s2 : String) (t2 : Int), secret = s2 → t.fdiv w = t2.fdiv w →
      deriveCode secret (t.fdiv w) = deriveCode s2 (t2.fdiv w) := by
  refine ⟨?_, deriveCode_length _ _, fun c hc => deriveCode_mem hc, ?_⟩
  · rw [generateOTPE, if_neg (by omega)]
  · rintro s2 t2 rfl h
    rw [h]

/-- Witness for `generateOTP_derivation` at the spec's scenario values. -/
theorem generateOTP_derivation_witness :
    (30000 : Int) ≤ 30000 ∧ (30000 : Int) ≤ 300000 ∧ (0 : Int) < 1700000000000 ∧
    (generateOTPE "abcd1234abcd1234" 30000 1700000000000 =
      .ok (deriveCode "abcd1234abcd1234" ((1700000000000 : Int).fdiv 30000)) ∧
     (deriveCode "abcd1234abcd1234" ((1700000000000 : Int).fdiv 30000)).length = 6 ∧
     (∀ c ∈ (deriveCode "abcd1234abcd1234" ((1700000000000 : Int).fdiv 30000)).data,
        c ∈ hexUpChars) ∧
     ∀ (s2 : String) (t2 : Int), "abcd1234abcd1234" = s2 →
        (1700000000000 : Int).fdiv 30000 = t2.fdiv 30000 →
        deriveCode "abcd1234abcd1234" ((1700000000000 : Int).fdiv 30000) =
          deriveCode s2 (t2.fdiv 30000)) :=
  ⟨by norm_num, by norm_num, by norm_num,
   generateOTP_derivation "abcd1234abcd1234" 30000 1700000000000
     (by norm_num) (by norm_num) (by norm_num)⟩

/-- C1 (amended): for a reference time beyond the first window, `validateOTP`
compares the normalised 6-character code against the codes of slots
`floor(t/w)`, `floor(t/w) - 1` and `floor(t/w) + 1` in that priority order,
returning valid `CURRENT_WINDOW`, valid `PREVIOUS_WINDOW`, invalid
`FUTURE_OTP`, and otherwise invalid `EXPIRED_OR_INVALID`. -/
theorem validateOTP_three_window_priority (secret : String) (w t now : Int) (s : String)
    (hw1 : 30000 ≤ w) (hw2 : w ≤ 300000) (ht : w < t)
    (hs : (jsNormalize s).length = 6) :
    validateOTP secret w (.str s) (some t) now =
      if jsNormalize s = deriveCode secret (t.fdiv w) then
        ⟨true, .CURRENT_WINDOW, "OTP is valid (current window)", some "current"⟩
      else if jsNormalize s = deriveCode secret (t.fdiv w - 1) then
        ⟨true, .PREVIOUS_WINDOW, "OTP is valid (previous window)", some "previous"⟩
      else if jsNormalize s = deriveCode secret (t.fdiv w + 1) then
        ⟨false, .FUTURE_OTP, "OTP is from future time window", none⟩
      else ⟨false, .EXPIRED_OR_INVALID, "OTP is expired or invalid", none⟩ := by
  have hw0 : (0 : Int) < w := by omega
  have hsne : s ≠ "" := by
    intro h
    rw [h] at hs
    have h0 : (jsNormalize "").length = 0 := rfl
    omega
  have h1 : ¬ (t ≤ 0) := by omega
  have h2 : ¬ (t - w ≤ 0) := by omega
  have h3 : ¬ (t + w ≤ 0) := by omega
  simp only [validateOTP, generateOTPE, if_neg hsne, if_neg h1, if_neg h2, if_neg h3,
    fdiv_sub_window t w hw0, fdiv_add_window t w hw0, hs]
  simp

/-- Witness for `validateOTP_three_window_priority` at concrete inputs. -/
theorem validateOTP_three_window_priority_witness :
    (30000 : Int) ≤ 30000 ∧ (30000 : Int) ≤ 300000 ∧ (30000 : Int) < 1700000029000 ∧
    (jsNormalize "2fe10c ").length = 6 ∧
    validateOTP "abcd1234abcd1234" 30000 (.str "2fe10c ") (some 1700000029000) 0 =
      (if jsNormalize "2fe10c " =
          deriveCode "abcd1234abcd1234" ((1700000029000 : Int).fdiv 30000) then
        ⟨true, .CURRENT_WINDOW, "OTP is valid (current window)", some "current"⟩
      else if jsNormalize "2fe10c " =
          deriveCode "abcd1234abcd1234" ((1700000029000 : Int).fdiv 30000 - 1) then
        ⟨true, .PREVIOUS_WINDOW, "OTP is valid (previous window)", some "previous"⟩
      else if jsNormalize "2fe10c " =
          deriveCode "abcd1234abcd1234" ((1700000029000 : Int).fdiv 30000 + 1) then
        ⟨false, .FUTURE_OTP, "OTP is from future time window", none⟩
      else ⟨false, .EXPIRED_OR_INVALID, "OTP is expired or invalid", none⟩) :=
  ⟨by norm_num, by norm_num, by norm_num, by decide,
   validateOTP_three_window_priority "abcd1234abcd1234" 30000 1700000029000 0 "2fe10c "
     (by norm_num) (by norm_num) (by norm_num) (by decide)⟩

/-- C1 counterexample to the claim as stated: at reference time `10000`
(positive, but within the first window) with window `30000`, a non-matching
6-character code yields `VALIDATION_ERROR` — the previous-window
`generateOTP` call throws on the non-positive timestamp `10000 - 30000` —
not the `EXPIRED_OR_INVALID` (or any of the three listed comparisons) the
claim requires for every reference time. -/
theorem validateOTP_small_time_cex :
    (validateOTP "k" 30000 (.str "ZZZZZZ") (some 10000) 999).reason = .VALIDATION_ERROR ∧
    (validateOTP "k" 30000 (.str "ZZZZZZ") (some 10000) 999).valid = false ∧
    Reason.VALIDATION_ERROR ≠ Reason.EXPIRED_OR_INVALID := by
  have hne : jsNormalize "ZZZZZZ" ≠ deriveCode "k" ((10000 : Int).fdiv 30000) := by
    have hz : jsNormalize "ZZZZZZ" = "ZZZZZZ" := rfl
    rw [hz]
    exact fun h => deriveCode_ne_ZZZZZZ "k" _ h.symm
  refine ⟨?_, ?_, by decide⟩ <;>
  · simp only [validateOTP, generateOTPE]
    norm_num
    rw [if_neg hne]
    decide

/-- C10: `validateOTP` is total over its public interface: every input is
mapped to a structured result whose reason is one of the six defined codes;
a non-string argument or a normalised length other than 6 yields an invalid
`INVALID_FORMAT` result; a non-positive (or, via `ts = none`, non-numeric)
reference timestamp is replaced by the current time; and the internal
`generateOTP` throw is caught and surfaced as `VALIDATION_ERROR`. -/
theorem validateOTP_total_interface (secret : String) (w : Int) (otp : JSVal)
    (ts : Option Int) (now : Int) :
    ((validateOTP secret w otp ts now).reason ∈
      [Reason.INVALID_FORMAT, .CURRENT_WINDOW, .PREVIOUS_WINDOW, .FUTURE_OTP,
       .EXPIRED_OR_INVALID, .VALIDATION_ERROR]) ∧
    (otp = .nonString →
      validateOTP secret w otp ts now =
        ⟨false, .INVALID_FORMAT, "OTP must be a non-empty string", none⟩) ∧
    (∀ s, otp = .str s → (jsNormalize s).length ≠ 6 →
      (validateOTP secret w otp ts now).valid = false ∧
      (validateOTP secret w otp ts now).reason = .INVALID_FORMAT) ∧
    (∀ t0, ts = some t0 → t0 ≤ 0 →
      validateOTP secret w otp ts now = validateOTP secret w otp none now) ∧
    (∀ s, otp = .str s → (jsNormalize s).length = 6 → now ≤ 0 →
      (validateOTP secret w otp none now).reason = .VALIDATION_ERROR) := by
  refine ⟨?_, ?_, ?_, ?_, ?_⟩
  · cases otp with
    | nonString => simp [validateOTP]
    | str s =>
      simp only [validateOTP]
      split
      · simp
      · split <;> [skip; (split <;> [simp; skip])] <;>
        · repeat' first | split | simp_all | rfl
  · rintro rfl
    rfl
  · rintro s rfl h6
    simp only [validateOTP]
    split
    · simp
    · simp [h6]
  · rintro t0 rfl h0
    cases otp with
    | nonString => rfl
    | str s => simp [validateOTP, if_pos h0]
  · rintro s rfl h6 hnow
    have hsne : s ≠ "" := by
      intro h
      rw [h] at h6
      have h0 : (jsNormalize "").length = 0 := rfl
      omega
    simp only [validateOTP, generateOTPE, if_neg hsne, if_pos hnow, h6]
    simp

/-- Witness for `validateOTP_total_interface`: a non-string OTP argument is
answered with the structured `INVALID_FORMAT` result. -/
theorem validateOTP_total_interface_witness :
    JSVal.nonString = JSVal.nonString ∧
    validateOTP "k" 30000 .nonString none 5 =
      ⟨false, .INVALID_FORMAT, "OTP must be a non-empty string", none⟩ :=
  ⟨rfl, (validateOTP_total_interface "k" 30000 .nonString none 5).2.1 rfl⟩

/-! ### Request validators (qr-server/utils/validation.js) -/

/-- `OTPValidator.validate`: trims, requires exactly 6 alphanumeric
characters (`^[A-Za-z0-9]{6}$`), and normalises to uppercase. Returns the
normalised OTP, or `none` for the `INVALID_OTP_FORMAT` error. -/
def otpValidate (o : String) : Option String :=
  let trimmed := jsTrimL o.data
  if trimmed.length = 0 then none
  else if trimmed.length = 6 && trimmed.all isAlnumCh then
    some (String.mk (trimmed.map jsToUpper))
  else none

/-- `PhoneNumberValidator.validate`: strips formatting characters, requires
7-15 digits, and normalises to a `+`-prefixed international form. Returns
the normalised number, or `none` for the `INVALID_PHONE_FORMAT` error. -/
def phoneValidate (p : String) : Option String :=
  let cleaned := p.data.filter fun c =>
    !(isSpaceCh c || c = '-' || c = '(' || c = ')' || c = '+')
  if !(cleaned.all isDigitCh) then none
  else if cleaned.length < 7 || 15 < cleaned.length then none
  else if p.data.head? = some '+' then some (String.mk ('+' :: cleaned))
  else
    let normalized :=
      if cleaned.length = 10 && cleaned.head? = some '0' then cleaned.tail
      else cleaned
    some (String.mk ('+' :: normalized))

/-- Middleware-level errors (each carries the `ERROR_CODES` code returned in
the 4xx response). -/
inductive MWErr
  | MISSING_REQUIRED_FIELD (field : String)
  | INVALID_OTP_FORMAT
  | INVALID_PHONE_FORMAT
  | INVALID_TIMESTAMP
deriving DecidableEq, Repr

/-- The `createValidationMiddleware` instance guarding `POST /api/checkin`:
rules `{otp: required, phoneNumber: required, timestamp: optional with
5-minute tolerance}`, validated in that order, first error returned. A
missing or falsy (empty) required field is `MISSING_REQUIRED_FIELD`; the
timestamp (modelled as epoch milliseconds) must lie within the tolerance of
`now`. On success the handler receives the normalised values. -/
def checkinMiddleware (otpRaw phoneRaw : Option String) (tsRaw : Option Int)
    (now : Int) : Except MWErr (String × String × Option Int) :=
  match otpRaw with
  | none => .error (.MISSING_REQUIRED_FIELD "otp")
  | some o =>
    if o = "" then .error (.MISSING_REQUIRED_FIELD "otp")
    else
      match otpValidate o with
      | none => .error .INVALID_OTP_FORMAT
      | some otpN =>
        match phoneRaw with
        | none => .error (.MISSING_REQUIRED_FIELD "phoneNumber")
        | some p =>
          if p = "" then .error (.MISSING_REQUIRED_FIELD "phoneNumber")
          else
            match phoneValidate p with
            | none => .error .INVALID_PHONE_FORMAT
            | some phoneN =>
              match tsRaw with
              | none => .ok (otpN, phoneN, none)
              | some t =>
                if (t - now).natAbs ≤ 300000 then .ok (otpN, phoneN, some t)
                else .error .INVALID_TIMESTAMP

/-! ### Check-in store (qr-server/database: checkInRepository.js, schema.js) -/

/-- A row of the `check_ins` table. -/
structure CheckInRecord where
  phone : String
  otp : String
  status : String
  ts : Int
deriving DecidableEq, Repr

/-- Storage-level errors. -/
inductive DBErr
  | constraintViolation
  | connectionError
deriving DecidableEq, Repr

/-- The CHECK constraint of `schema.js`:
`validation_status IN ('valid', 'expired', 'invalid')`. -/
def allowedStatus (s : String) : Bool :=
  s = "valid" || s = "expired" || s = "invalid"

/-- `CheckInRepository.recordCheckIn`: inserts one immutable row and returns
its id together with the new table state. `dbOk = false` models a transient
storage failure; a status outside the schema's CHECK constraint always fails
with a constraint violation. Ids are the (unique) insertion indices of the
append-only table. -/
def recordCheckIn (dbOk : Bool) (store : List CheckInRecord)
    (phone otp status : String) (ts : Int) :
    Except DBErr (Nat × List CheckInRecord) :=
  if !allowedStatus status then .error .constraintViolation
  else if !dbOk then .error .connectionError
  else .ok (store.length, store ++ [⟨phone, otp, status, ts⟩])

/-! ### The `POST /api/checkin` route (servers/express.server.js) -/

/-- The status classification of the route:
`validation.valid ? 'valid' : reason === 'EXPIRED_OR_INVALID' ? 'expired' :
'invalid'`. -/
def classifyStatus (v : VResult) : String :=
  if v.valid then "valid"
  else if v.reason = .EXPIRED_OR_INVALID then "expired"
  else "invalid"

/-- The response of one `POST /api/checkin` request. -/
inductive RouteResp
  | ok (checkinId : Nat)
  | failJson (code : Reason) (checkinId : Nat)
  | middlewareError (code : MWErr)
  | thrown (e : DBErr)
deriving DecidableEq, Repr

/-- The observable outcome of one `POST /api/checkin` request: the response,
the resulting table, and the trace of statuses passed to `recordCheckIn`
(in call order). -/
structure RouteOut where
  resp : RouteResp
  store : List CheckInRecord
  attempts : List String
deriving DecidableEq, Repr

/-- The `POST /api/checkin` handler with its validation middleware: validate
the request, classify the OTP against the engine, record the attempt
regardless of validity, and on a thrown error make one best-effort
`status = 'error'` write (its own failure swallowed) before rethrowing the
original error. `db1`/`db2` are the outcomes the storage layer would give
the first and second insert. -/
def checkinRoute (secret : String) (w : Int) (db1 db2 : Bool) (now : Int)
    (store : List CheckInRecord) (otpRaw phoneRaw : Option String)
    (tsRaw : Option Int) : RouteOut :=
  match checkinMiddleware otpRaw phoneRaw tsRaw now with
  | .error e => ⟨.middlewareError e, store, []⟩
  | .ok (otp, phone, tsOpt) =>
    let checkInTime := tsOpt.getD now
    let v := validateOTP secret w (.str otp) (some checkInTime) now
    let status := classifyStatus v
    match recordCheckIn db1 store phone otp status checkInTime with
    | .ok (id, store1) =>
      if v.valid then ⟨.ok id, store1, [status]⟩
      else ⟨.failJson v.reason id, store1, [status]⟩
    | .error e =>
      match recordCheckIn db2 store phone otp "error" checkInTime with
      | .ok (_, store1) => ⟨.thrown e, store1, [status, "error"]⟩
      | .error _ => ⟨.thrown e, store, [status, "error"]⟩

/-- The status the route passes to the store always satisfies the schema's
CHECK constraint. -/
theorem classifyStatus_allowed (v : VResult) : allowedStatus (classifyStatus v) = true := by
  rw [classifyStatus]
  split
  · rfl
  · split <;> rfl

/-- C3 (amended): a submission that passes the boundary format validation
produces exactly one stored record — whatever the engine outcome, including
window-validation failure — holding the normalised phone and OTP and the
classified status. -/
theorem checkin_records_exactly_one (secret : String) (w : Int) (db2 : Bool)
    (now : Int) (store : List CheckInRecord) (otpRaw phoneRaw : Option String)
    (tsRaw : Option Int) (o p : String) (ts : Option Int)
    (hmw : checkinMiddleware otpRaw phoneRaw tsRaw now = .ok (o, p, ts)) :
    (checkinRoute secret w true db2 now store otpRaw phoneRaw tsRaw).store =
      store ++ [⟨p, o,
        classifyStatus (validateOTP secret w (.str o) (some (ts.getD now)) now),
        ts.getD now⟩] ∧
    (checkinRoute secret w true db2 now store otpRaw phoneRaw tsRaw).store.length =
      store.length + 1 ∧
    (checkinRoute secret w true db2 now store otpRaw phoneRaw tsRaw).attempts.length = 1 := by
  simp only [checkinRoute, hmw]
  simp only [recordCheckIn, classifyStatus_allowed, Bool.not_true, Bool.false_eq_true,
    if_false]
  split <;> simp

/-- C3 counterexample to the claim as stated: a 5-character code is rejected
by the route's validation middleware with `INVALID_OTP_FORMAT` before the
handler runs — no record at all is written (the claim requires one record
with status `invalid`), and the reported code is the middleware's
`INVALID_OTP_FORMAT`, not the engine's `INVALID_FORMAT`. -/
theorem checkin_five_char_cex :
    checkinRoute "k" 30000 true true 1700000000000 [] (some "ABC12")
        (some "1234567") none =
      ⟨.middlewareError .INVALID_OTP_FORMAT, [], []⟩ := by
  decide

/-- C4: if persistence of the classified attempt fails, the route makes
exactly one further best-effort `status = 'error'` write attempt, the
original storage error propagates (for either outcome of that second write,
which the schema CHECK constraint in fact dooms), and the response is never
a fabricated success. -/
theorem checkin_error_write_propagation (secret : String) (w : Int) (db2 : Bool)
    (now : Int) (store : List CheckInRecord) (otpRaw phoneRaw : Option String)
    (tsRaw : Option Int) (o p : String) (ts : Option Int)
    (hmw : checkinMiddleware otpRaw phoneRaw tsRaw now = .ok (o, p, ts)) :
    (checkinRoute secret w false db2 now store otpRaw phoneRaw tsRaw).attempts =
      [classifyStatus (validateOTP secret w (.str o) (some (ts.getD now)) now),
       "error"] ∧
    (checkinRoute secret w false db2 now store otpRaw phoneRaw tsRaw).resp =
      .thrown .connectionError ∧
    (∀ id, (checkinRoute secret w false db2 now store otpRaw phoneRaw tsRaw).resp ≠
      .ok id) ∧
    (checkinRoute secret w false db2 now store otpRaw phoneRaw tsRaw).store = store := by
  simp only [checkinRoute, hmw]
  simp only [recordCheckIn, classifyStatus_allowed, Bool.not_true, Bool.false_eq_true,
    if_false, Bool.not_false, if_true]
  simp [allowedStatus]

/-- C5: the classification the route writes is: engine-valid to `valid`,
engine reason `EXPIRED_OR_INVALID` to `expired`, any other invalid reason to
`invalid`, and the exception path writes `error` — which the `check_ins`
CHECK constraint of `schema.js` rejects, so that write always fails with a
constraint violation. -/
theorem checkin_status_mapping :
    (∀ v : VResult, v.valid = true → classifyStatus v = "valid") ∧
    (∀ v : VResult, v.valid = false → v.reason = .EXPIRED_OR_INVALID →
      classifyStatus v = "expired") ∧
    (∀ v : VResult, v.valid = false → v.reason ≠ .EXPIRED_OR_INVALID →
      classifyStatus v = "invalid") ∧
    (∀ (db : Bool) (store : List CheckInRecord) (p o : String) (t : Int),
      recordCheckIn db store p o "error" t = .error .constraintViolation) := by
  refine ⟨?_, ?_, ?_, ?_⟩
  · intro v hv
    simp [classifyStatus, hv]
  · intro v hv hr
    simp [classifyStatus, hv, hr]
  · intro v hv hr
    simp [classifyStatus, hv, hr]
  · intro db store p o t
    rfl

/-- Witness for `checkin_status_mapping` at concrete engine results. -/
theorem checkin_status_mapping_witness :
    (VResult.mk true .CURRENT_WINDOW "m" (some "current")).valid = true ∧
    classifyStatus (VResult.mk true .CURRENT_WINDOW "m" (some "current")) = "valid" ∧
    (VResult.mk false .EXPIRED_OR_INVALID "m" none).valid = false ∧
    classifyStatus (VResult.mk false .EXPIRED_OR_INVALID "m" none) = "expired" ∧
    (VResult.mk false .FUTURE_OTP "m" none).valid = false ∧
    classifyStatus (VResult.mk false .FUTURE_OTP "m" none) = "invalid" ∧
    recordCheckIn true [] "+1234567" "ABC123" "error" 0 = .error .constraintViolation :=
  ⟨rfl, checkin_status_mapping.1 _ rfl, rfl,
   checkin_status_mapping.2.1 _ rfl rfl, rfl,
   checkin_status_mapping.2.2.1 _ rfl (by decide),
   checkin_status_mapping.2.2.2 true [] "+1234567" "ABC123" 0⟩

/-- Witness for `checkin_records_exactly_one` at a concrete request. -/
theorem checkin_records_exactly_one_witness :
    checkinMiddleware (some "ABC123") (some "1234567") none 5 =
      .ok ("ABC123", "+1234567", none) ∧
    ((checkinRoute "k" 30000 true true 5 [] (some "ABC123") (some "1234567") none).store =
      [] ++ [⟨"+1234567", "ABC123",
        classifyStatus (validateOTP "k" 30000 (.str "ABC123")
          (some ((none : Option Int).getD 5)) 5),
        (none : Option Int).getD 5⟩] ∧
     (checkinRoute "k" 30000 true true 5 [] (some "ABC123") (some "1234567") none).store.length =
       ([] : List CheckInRecord).length + 1 ∧
     (checkinRoute "k" 30000 true true 5 [] (some "ABC123") (some "1234567") none).attempts.length = 1) :=
  ⟨rfl,
   checkin_records_exactly_one "k" 30000 true 5 [] (some "ABC123") (some "1234567")
     none "ABC123" "+1234567" none rfl⟩

/-- Witness for `checkin_error_write_propagation` at a concrete request. -/
theorem checkin_error_write_propagation_witness :
    checkinMiddleware (some "ABC123") (some "1234567") none 7 =
      .ok ("ABC123", "+1234567", none) ∧
    ((checkinRoute "k" 30000 false true 7 [] (some "ABC123") (some "1234567") none).attempts =
      [classifyStatus (validateOTP "k" 30000 (.str "ABC123")
        (some ((none : Option Int).getD 7)) 7), "error"] ∧
     (checkinRoute "k" 30000 false true 7 [] (some "ABC123") (some "1234567") none).resp =
       .thrown .connectionError ∧
     (∀ id, (checkinRoute "k" 30000 false true 7 [] (some "ABC123") (some "1234567") none).resp ≠
       .ok id) ∧
     (checkinRoute "k" 30000 false true 7 [] (some "ABC123") (some "1234567") none).store = []) :=
  ⟨rfl,
   checkin_error_write_propagation "k" 30000 true 7 [] (some "ABC123") (some "1234567")
     none "ABC123" "+1234567" none rfl⟩

/-! ### Configuration bootstrap (database/schema.js, scripts/init-db.js,
database/configRepository.js) and service start-up (express.server.js) -/

/-- The `system_config` table: key-value rows, key unique. -/
def getCfg (cfg : List (String × String)) (k : String) : Option String :=
  (cfg.find? fun kv => kv.1 = k).map fun kv => kv.2

/-- `INSERT OR IGNORE INTO system_config`: inserts only when the key is
absent. -/
def insertOrIgnore (cfg : List (String × String)) (k v : String) :
    List (String × String) :=
  match getCfg cfg k with
  | some _ => cfg
  | none => cfg ++ [(k, v)]

/-- `initializeSchema(dbConnection, secretKey)`: after creating tables and
indexes (no-ops on the modelled state), inserts the default `otp_secret`
when a truthy secret is supplied. -/
def initSchema (cfg : List (String × String)) (secretKey : Option String) :
    List (String × String) :=
  match secretKey with
  | some k => if k = "" then cfg else insertOrIgnore cfg "otp_secret" k
  | none => cfg

/-- `initializeDatabase` of init-db.js: the candidate secret is the
environment secret or a freshly generated random hex string. -/
def initDatabase (cfg : List (String × String)) (envSecret : Option String)
    (randHex : String) : List (String × String) :=
  initSchema cfg (some (jsOr envSecret randHex))

/-- Outcome of `initializeQRServices` of express.server.js. -/
inductive InitResult
  | fatal
  | ok (secretKey : String) (window : Int)
deriving DecidableEq, Repr

/-- `initializeQRServices`: connect (failure is fatal), load the OTP secret
from the database — falling back, when the lookup throws or the entry is
absent, to the environment secret or the hard-coded default — then construct
the OTP service, whose constructor only throws when the configured time
window lies outside `[30000, 300000]`; any throw is caught at the top level
and ends the process (`process.exit(1)`). -/
def initQRServices (dbConnect : Bool) (dbSecret : Option String)
    (envSecret : Option String) (windowMs : Option Int) : InitResult :=
  if !dbConnect then .fatal
  else
    let secret :=
      match dbSecret with
      | some s => s
      | none => jsOr envSecret "default-secret-key-change-in-production"
    match windowMs with
    | some w => if 30000 ≤ w ∧ w ≤ 300000 then .ok secret w else .fatal
    | none => .fatal

/-- C6 counterexample to the claim as stated: with no `otp_secret` entry in
the store (and no environment secret), initialisation does not fail — it
completes and serves validation traffic with the hard-coded default secret. -/
theorem init_missing_secret_cex :
    initQRServices true none none (some 30000) =
      .ok "default-secret-key-change-in-production" 30000 ∧
    initQRServices true none none (some 30000) ≠ .fatal := by
  constructor
  · rfl
  · intro h
    simp [initQRServices, jsOr] at h

/-- C6 (amended): a missing `otp_secret` entry is not fatal — initialisation
falls back to the environment secret, or failing that to the hard-coded
default, and completes; initialisation is fatal exactly when the database
connection fails or the configured time window is absent or out of range. -/
theorem initQRServices_fallback (dbConnect : Bool) (dbSecret envSecret : Option String)
    (w : Int) (hw : 30000 ≤ w ∧ w ≤ 300000) :
    (initQRServices true none envSecret (some w) =
      .ok (jsOr envSecret "default-secret-key-change-in-production") w) ∧
    (∀ s, initQRServices true (some s) envSecret (some w) = .ok s w) ∧
    (∀ wm, initQRServices dbConnect dbSecret envSecret wm = .fatal ↔
      dbConnect = false ∨ wm = none ∨
      ∃ w0, wm = some w0 ∧ ¬(30000 ≤ w0 ∧ w0 ≤ 300000)) := by
  refine ⟨?_, ?_, ?_⟩
  · simp [initQRServices, hw]
  · intro s
    simp [initQRServices, hw]
  · intro wm
    cases dbConnect with
    | false => simp [initQRServices]
    | true =>
      cases wm with
      | none => simp [initQRServices]
      | some w0 =>
        by_cases h0 : 30000 ≤ w0 ∧ w0 ≤ 300000 <;>
          simp [initQRServices, h0] <;> omega

/-- Witness for `initQRServices_fallback` at concrete inputs. -/
theorem initQRServices_fallback_witness :
    ((30000 : Int) ≤ 45000 ∧ (45000 : Int) ≤ 300000) ∧
    (initQRServices true none (some "env-secret-0123456789abcdef") (some 45000) =
      .ok (jsOr (some "env-secret-0123456789abcdef")
        "default-secret-key-change-in-production") 45000 ∧
     (∀ s, initQRServices true (some s) (some "env-secret-0123456789abcdef") (some 45000) =
       .ok s 45000) ∧
     (∀ wm, initQRServices false none (some "env-secret-0123456789abcdef") wm = .fatal ↔
       false = false ∨ wm = none ∨
       ∃ w0, wm = some w0 ∧ ¬((30000 : Int) ≤ w0 ∧ w0 ≤ 300000))) :=
  ⟨by norm_num,
   initQRServices_fallback false none (some "env-secret-0123456789abcdef") 45000
     (by norm_num)⟩

/-- Looking up a key after `INSERT OR IGNORE` yields the old value when the
key was present, and the inserted value otherwise. -/
theorem getCfg_insertOrIgnore (cfg : List (String × String)) (k v : String) :
    getCfg (insertOrIgnore cfg k v) k = some ((getCfg cfg k).getD v) := by
  rw [insertOrIgnore]
  cases h : getCfg cfg k with
  | some v0 => simp [h]
  | none =>
    rw [getCfg, List.find?_append]
    rw [getCfg] at h
    cases hf : List.find? (fun kv => kv.1 = k) cfg with
    | some kv => simp [hf] at h
    | none => simp [hf]

/-- C7: the configuration bootstrap preserves an existing secret — when an
`otp_secret` entry exists, running schema initialisation again with any new
candidate leaves the whole configuration state (hence the stored secret)
unchanged — and running `initializeDatabase` twice leaves the secret at its
value after the first run, whatever candidates the two runs carry. -/
theorem config_bootstrap_idempotent (cfg : List (String × String)) (v : String)
    (h : getCfg cfg "otp_secret" = some v) :
    (∀ sk, initSchema cfg sk = cfg) ∧
    (∀ sk, getCfg (initSchema cfg sk) "otp_secret" = some v) ∧
    (∀ (cfg0 : List (String × String)) (e1 e2 : Option String) (r1 r2 : String),
      r1 ≠ "" →
      getCfg (initDatabase (initDatabase cfg0 e1 r1) e2 r2) "otp_secret" =
        getCfg (initDatabase cfg0 e1 r1) "otp_secret") := by
  have hpres : ∀ (c : List (String × String)) v0 sk,
      getCfg c "otp_secret" = some v0 → initSchema c sk = c := by
    intro c v0 sk h0
    cases sk with
    | none => rfl
    | some k =>
      rw [initSchema]
      split
      · rfl
      · rw [insertOrIgnore, h0]
  refine ⟨fun sk => hpres cfg v sk h, fun sk => by rw [hpres cfg v sk h, h], ?_⟩
  intro cfg0 e1 e2 r1 r2 hr1
  have h1 : ∃ v1, getCfg (initDatabase cfg0 e1 r1) "otp_secret" = some v1 := by
    rw [initDatabase, initSchema]
    have hne : jsOr e1 r1 ≠ "" := by
      cases e1 with
      | none => exact hr1
      | some s =>
        by_cases hs : s = ""
        · simpa [jsOr, hs] using hr1
        · simpa [jsOr, hs] using hs
    rw [if_neg hne]
    exact ⟨_, getCfg_insertOrIgnore cfg0 "otp_secret" (jsOr e1 r1)⟩
  obtain ⟨v1, hv1⟩ := h1
  rw [initDatabase, hpres _ v1 _ hv1]

/-- Witness for `config_bootstrap_idempotent` at a concrete configuration. -/
theorem config_bootstrap_idempotent_witness :
    getCfg [("otp_secret", "s1")] "otp_secret" = some "s1" ∧
    ((∀ sk, initSchema [("otp_secret", "s1")] sk = [("otp_secret", "s1")]) ∧
     (∀ sk, getCfg (initSchema [("otp_secret", "s1")] sk) "otp_secret" = some "s1") ∧
     (∀ (cfg0 : List (String × String)) (e1 e2 : Option String) (r1 r2 : String),
       r1 ≠ "" →
       getCfg (initDatabase (initDatabase cfg0 e1 r1) e2 r2) "otp_secret" =
         getCfg (initDatabase cfg0 e1 r1) "otp_secret")) :=
  ⟨rfl, config_bootstrap_idempotent [("otp_secret", "s1")] "s1" rfl⟩

/-! ### `WhatsAppService` (qr-server/services/whatsappService.js) with models
of `encodeURIComponent`, `URLSearchParams` and the extraction regex -/

/-- The regex class `[A-Za-z0-9_]` (JS word characters, for boundaries). -/
def isWordCh (c : Char) : Bool := isAlnumCh c || c = '_'

/-- Characters `encodeURIComponent` leaves unescaped:
alphanumerics and `- _ . ! ~ * ' ( )`. -/
def isUnreservedCh (c : Char) : Bool :=
  isAlnumCh c || c = '-' || c = '_' || c = '.' || c = '!' || c = '~' ||
  c = '*' || c = Char.ofNat 39 || c = '(' || c = ')'

/-- One uppercase hex digit (percent-encoding uses uppercase hex). -/
def hexUpDigit (n : Nat) : Char := hexUpChars.getD (n % 16) '0'

/-- UTF-8 bytes of one code point. -/
def charUtf8 (c : Char) : List Nat :=
  let n := c.toNat
  if n < 128 then [n]
  else if n < 2048 then [192 + n / 64, 128 + n % 64]
  else if n < 65536 then [224 + n / 4096, 128 + (n / 64) % 64, 128 + n % 64]
  else [240 + n / 262144, 128 + (n / 4096) % 64, 128 + (n / 64) % 64, 128 + n % 64]

/-- `encodeURIComponent` on one character. -/
def encChar (c : Char) : List Char :=
  if isUnreservedCh c then [c]
  else (charUtf8 c).flatMap fun b => ['%', hexUpDigit (b / 16), hexUpDigit b]

/-- `encodeURIComponent` on a char list. -/
def encodeUriComp (l : List Char) : List Char := l.flatMap encChar

/-- The regex class of hex digits accepted by percent-decoding. -/
def isHexDigitCh (c : Char) : Bool :=
  (48 ≤ c.toNat && c.toNat ≤ 57) || (97 ≤ c.toNat && c.toNat ≤ 102) ||
  (65 ≤ c.toNat && c.toNat ≤ 70)

/-- Value of a hex digit. -/
def hexVal (c : Char) : Nat :=
  if 48 ≤ c.toNat ∧ c.toNat ≤ 57 then c.toNat - 48
  else if 97 ≤ c.toNat ∧ c.toNat ≤ 102 then c.toNat - 87
  else if 65 ≤ c.toNat ∧ c.toNat ≤ 70 then c.toNat - 55
  else 0

/-- Percent-decoding: `ps = true` is the `application/x-www-form-urlencoded`
variant used by `URLSearchParams` (`+` becomes a space); `ps = false` is
`decodeURIComponent`. Multi-byte sequences are decoded byte-wise, which
coincides with the JS behaviour on the ASCII inputs of this development. -/
def pctDecode (ps : Bool) : List Char → List Char
  | [] => []
  | c :: h1 :: h2 :: rest =>
    if ps = true ∧ c = '+' then ' ' :: pctDecode ps (h1 :: h2 :: rest)
    else if c = '%' then
      if isHexDigitCh h1 && isHexDigitCh h2 then
        Char.ofNat (16 * hexVal h1 + hexVal h2) :: pctDecode ps rest
      else c :: pctDecode ps (h1 :: h2 :: rest)
    else c :: pctDecode ps (h1 :: h2 :: rest)
  | c :: cs =>
    if ps = true ∧ c = '+' then ' ' :: pctDecode ps cs
    else c :: pctDecode ps cs

/-- Split at the first occurrence of a separator. -/
def splitFirstL (sep : Char) : List Char → Option (List Char × List Char)
  | [] => none
  | c :: cs =>
    if c = sep then some ([], cs)
    else
      match splitFirstL sep cs with
      | none => none
      | some (a, b) => some (c :: a, b)

/-- Split at every occurrence of a separator. -/
def splitAllL (sep : Char) (l : List Char) : List (List Char) :=
  l.foldr
    (fun c acc =>
      if c = sep then [] :: acc
      else
        match acc with
        | [] => [[c]]
        | a :: rest => (c :: a) :: rest)
    [[]]

/-- `new URL(url).searchParams.get('text')`: the form-decoded value of the
first `text` parameter of the query string, if any. -/
def getTextParam (url : List Char) : Option (List Char) :=
  match splitFirstL '?' url with
  | none => none
  | some (_, query) =>
    (splitAllL '&' query).findSome? fun p =>
      match splitFirstL '=' p with
      | none => if pctDecode true p = "text".data then some [] else none
      | some (k, v) =>
        if pctDecode true k = "text".data then some (pctDecode true v) else none

/-- Prefix test on char lists. -/
def startsWithL (l pat : List Char) : Bool := l.take pat.length == pat

/-- Substring test (JS `String.prototype.includes`). -/
def hasSubstrL : List Char → List Char → Bool
  | [], pat => pat.isEmpty
  | c :: cs, pat => startsWithL (c :: cs) pat || hasSubstrL cs pat

/-- JS `String.prototype.replace` with a string pattern: replace the first
occurrence only. -/
def replaceFirstL : List Char → List Char → List Char → List Char
  | [], _, _ => []
  | c :: cs, pat, rep =>
    if startsWithL (c :: cs) pat then rep ++ (c :: cs).drop pat.length
    else c :: replaceFirstL cs pat rep

/-- A boundary (`\b`) holds against a neighbouring character (none at the
ends of the string). -/
def bdry (oc : Option Char) : Bool :=
  match oc with
  | none => true
  | some c => !isWordCh c

/-- First match of `/\b[A-Z0-9]{6}\b/`, scanning left to right; `prev` is the
character before the current position. -/
def findOtp : Option Char → List Char → Option (List Char)
  | _, [] => none
  | prev, c :: cs =>
    if bdry prev && ((c :: cs).take 6).all isUpperAlnum &&
        ((c :: cs).take 6).length == 6 && bdry ((c :: cs).drop 6).head? then
      some ((c :: cs).take 6)
    else findOtp (some c) cs

/-- The constructor argument of `WhatsAppService`. -/
structure WSConfig where
  whatsappNumber : Option String
  messageTemplate : Option String
  fallbackToWeb : Option Bool

/-- The state of a constructed `WhatsAppService`. -/
structure WSState where
  whatsappNumber : String
  messageTemplate : String
  fallbackToWeb : Bool
deriving DecidableEq, Repr

/-- The `WhatsAppService` constructor: assigns configuration (with the
environment number, the default template and `fallbackToWeb = true` as
fallbacks) and performs no validation — it cannot throw. -/
def wsConstruct (envPhone : String) (c : WSConfig) : Except String WSState :=
  .ok ⟨jsOr c.whatsappNumber envPhone,
       jsOr c.messageTemplate "Check-in code: {otp}",
       c.fallbackToWeb.getD true⟩

/-- `cleanWhatsAppNumber`: strip non-digits, require 7-15 digits and no
leading zero. -/
def cleanWhatsAppNumber (p : String) : Except String String :=
  if p = "" then .error "WhatsApp number must be a non-empty string"
  else
    let cleaned := p.data.filter isDigitCh
    if cleaned.length < 7 || 15 < cleaned.length then
      .error "WhatsApp number must be 7-15 digits long"
    else if cleaned.head? = some '0' then
      .error "WhatsApp number must be in international format (no leading zero)"
    else .ok (String.mk cleaned)

/-- `generateWhatsAppURL(otp)` (default options): validate and normalise the
OTP, substitute it into the template, validate the configured number at this
point, and render `https://wa.me/<number>?text=<encoded message>`. -/
def generateWhatsAppURL (st : WSState) (otp : String) : Except String String :=
  if otp = "" then .error "OTP must be a non-empty string"
  else
    let n := jsNormalize otp
    if !(n.data.all isUpperAlnum && n.length == 6) then
      .error "OTP must be 6 alphanumeric characters"
    else
      let message := replaceFirstL st.messageTemplate.data "{otp}".data n.data
      match cleanWhatsAppNumber st.whatsappNumber with
      | .error e => .error e
      | .ok cn =>
        .ok (String.mk ("https://wa.me/".data ++ cn.data ++ "?text=".data ++
          encodeUriComp message))

/-- `validateWhatsAppURL`: the regex
`^https:\/\/(wa\.me|web\.whatsapp\.com)\/`. -/
def validateWhatsAppURL (url : String) : Bool :=
  startsWithL url.data "https://wa.me/".data ||
  startsWithL url.data "https://web.whatsapp.com/".data

/-- `extractOTPFromURL`: reject non-WhatsApp URLs, read the `text` query
parameter, `decodeURIComponent` it, and return the first
`/\b[A-Z0-9]{6}\b/` match. -/
def extractOTPFromURL (url : String) : Option String :=
  if !validateWhatsAppURL url then none
  else
    match getTextParam url.data with
    | none => none
    | some text => (findOtp none (pctDecode false text)).map String.mk

/-- A truthy optional string (JS `if (config.field)`). -/
def truthyStr (o : Option String) : Option String :=
  match o with
  | some s => if s = "" then none else some s
  | none => none

/-- `updateConfig`: validates a supplied number through
`cleanWhatsAppNumber` and requires a supplied template to contain the
`{otp}` placeholder; throws on either violation. -/
def updateConfig (st : WSState) (c : WSConfig) : Except String WSState := do
  let st1 ←
    match truthyStr c.whatsappNumber with
    | some nstr => (cleanWhatsAppNumber nstr).map fun _ => { st with whatsappNumber := nstr }
    | none => .ok st
  let st2 ←
    match truthyStr c.messageTemplate with
    | some tpl =>
      if hasSubstrL tpl.data "{otp}".data then
        .ok { st1 with messageTemplate := tpl }
      else .error "Message template must include {otp} placeholder"
    | none => .ok st1
  match c.fallbackToWeb with
  | some fb => .ok { st2 with fallbackToWeb := fb }
  | none => .ok st2

/-! ### Facts about the JS string primitives -/

/-- Rebuilding a string from its characters is the identity. -/
theorem strMk_data (s : String) : String.mk s.data = s := by
  cases s
  rfl

/-- A character cannot be in two disjoint classes. -/
theorem ne_of_classes {f : Char → Bool} {c d : Char} (h : f c = true)
    (h2 : f d = false) : c ≠ d := by
  intro h3
  rw [h3, h2] at h
  exact Bool.false_ne_true h

/-- Upper-casing leaves `[A-Z0-9]` characters unchanged. -/
theorem jsToUpper_id {c : Char} (h : isUpperAlnum c = true) : jsToUpper c = c := by
  rw [jsToUpper, if_neg]
  simp only [isUpperAlnum, isDigitCh, Bool.or_eq_true, Bool.and_eq_true,
    decide_eq_true_eq] at h
  omega

/-- Upper-casing leaves an `[A-Z0-9]` string unchanged. -/
theorem map_jsToUpper_id {l : List Char} (h : l.all isUpperAlnum = true) :
    l.map jsToUpper = l := by
  induction l with
  | nil => rfl
  | cons c cs ih =>
    simp only [List.all_cons, Bool.and_eq_true] at h
    simp [jsToUpper_id h.1, ih h.2]

/-- `[A-Z0-9]` characters are not whitespace. -/
theorem upperAlnum_not_space {c : Char} (h : isUpperAlnum c = true) :
    isSpaceCh c = false := by
  simp only [isUpperAlnum, isDigitCh, Bool.or_eq_true, Bool.and_eq_true,
    decide_eq_true_eq] at h
  simp only [isSpaceCh, Bool.or_eq_false_iff, decide_eq_false_iff_not]
  omega

/-- `[A-Z0-9]` characters are ASCII. -/
theorem upperAlnum_ascii {c : Char} (h : isUpperAlnum c = true) : c.toNat < 128 := by
  simp only [isUpperAlnum, isDigitCh, Bool.or_eq_true, Bool.and_eq_true,
    decide_eq_true_eq] at h
  omega

/-- `dropWhile` is the identity when no element satisfies the predicate. -/
theorem dropWhile_id {p : Char → Bool} {l : List Char}
    (h : ∀ c ∈ l, p c = false) : l.dropWhile p = l := by
  cases l with
  | nil => rfl
  | cons c cs => rw [List.dropWhile_cons, h c (by simp)]; simp

/-- Trimming a whitespace-free string is the identity. -/
theorem jsTrimL_id {l : List Char} (h : ∀ c ∈ l, isSpaceCh c = false) :
    jsTrimL l = l := by
  rw [jsTrimL, dropWhile_id h, dropWhile_id, List.reverse_reverse]
  intro c hc
  exact h c (by simpa using hc)

/-- Normalisation is the identity on `[A-Z0-9]{n}` strings. -/
theorem jsNormalize_id {s : String} (h : s.data.all isUpperAlnum = true) :
    jsNormalize s = s := by
  rw [jsNormalize, jsTrimL_id, map_jsToUpper_id h, strMk_data]
  intro c hc
  exact upperAlnum_not_space (by simpa using List.all_eq_true.mp h c hc)

/-! ### Facts about percent-encoding and decoding -/

/-- Every uppercase hex digit produced is in the alphabet. -/
theorem hexUpDigit_mem (n : Nat) : hexUpDigit n ∈ hexUpChars := by
  have h : n % 16 < hexUpChars.length := by
    have hlen : hexUpChars.length = 16 := rfl
    omega
  rw [hexUpDigit, List.getD_eq_getElem _ _ h]
  exact List.getElem_mem h

/-- Uppercase hex alphabet characters satisfy the hex-digit class. -/
theorem mem_hexUp_isHex {c : Char} (h : c ∈ hexUpChars) : isHexDigitCh c = true := by
  have key : ∀ x ∈ hexUpChars, isHexDigitCh x = true := by decide
  exact key c h

/-- Decoding inverts the hex digit rendering. -/
theorem hexVal_hexUpDigit (d : Nat) : hexVal (hexUpDigit d) = d % 16 := by
  have key : ∀ m, m < 16 → hexVal (hexUpChars.getD m '0') = m := by decide
  exact key (d % 16) (Nat.mod_lt _ (by omega))

/-- Unfolding `pctDecode` on a character that is neither `+` (in form mode)
nor `%`. -/
theorem pctDecode_cons_plain (ps : Bool) (c : Char) (cs : List Char)
    (h1 : ¬(ps = true ∧ c = '+')) (h2 : c ≠ '%') :
    pctDecode ps (c :: cs) = c :: pctDecode ps cs := by
  match cs with
  | [] => simp [pctDecode, h1, h2]
  | [a] => simp [pctDecode, h1, h2]
  | a :: b :: t => simp [pctDecode, h1, h2]

/-- Unfolding `pctDecode` on a valid percent escape. -/
theorem pctDecode_pct (ps : Bool) (h1 h2 : Char) (rest : List Char)
    (hh1 : isHexDigitCh h1 = true) (hh2 : isHexDigitCh h2 = true) :
    pctDecode ps ('%' :: h1 :: h2 :: rest) =
      Char.ofNat (16 * hexVal h1 + hexVal h2) :: pctDecode ps rest := by
  have hplus : ¬(ps = true ∧ '%' = '+') := by simp
  simp [pctDecode, hplus, hh1, hh2]

/-- A character outside the unescaped set, the hex alphabet and `%` never
occurs in an encoded component. -/
theorem encChar_not_special {sp c : Char} (hu : isUnreservedCh sp = false)
    (hh : sp ∉ hexUpChars) (hp : sp ≠ '%') : sp ∉ encChar c := by
  rw [encChar]
  split
  · intro hmem
    simp only [List.mem_singleton] at hmem
    subst hmem
    simp_all
  · intro hmem
    simp only [List.mem_flatMap, List.mem_cons, List.not_mem_nil, or_false] at hmem
    obtain ⟨b, _, hb | hb | hb⟩ := hmem
    · exact hp hb
    · exact hh (hb ▸ hexUpDigit_mem _)
    · exact hh (hb ▸ hexUpDigit_mem _)

/-- Form-decoding inverts `encodeURIComponent` on ASCII strings. -/
theorem pctDecode_encode (ps : Bool) (l : List Char) (h : ∀ c ∈ l, c.toNat < 128) :
    pctDecode ps (encodeUriComp l) = l := by
  induction l with
  | nil => rfl
  | cons c cs ih =>
    have hc : c.toNat < 128 := h c (by simp)
    have ihr : pctDecode ps (encodeUriComp cs) = cs :=
      ih fun x hx => h x (by simp [hx])
    rw [encodeUriComp, List.flatMap_cons]
    by_cases hu : isUnreservedCh c = true
    · rw [encChar, if_pos hu]
      have hplus : ¬(ps = true ∧ c = '+') := by
        rintro ⟨-, rfl⟩
        exact absurd hu (by decide)
      have hpct : c ≠ '%' := ne_of_classes hu (by decide)
      rw [List.singleton_append, pctDecode_cons_plain ps c _ hplus hpct,
        ← encodeUriComp, ihr]
    · rw [encChar, if_neg hu, charUtf8]
      simp only [if_pos hc]
      rw [List.flatMap_singleton]
      show pctDecode ps
        ('%' :: hexUpDigit (c.toNat / 16) :: hexUpDigit c.toNat :: cs.flatMap encChar) =
        c :: cs
      rw [pctDecode_pct ps _ _ _ (mem_hexUp_isHex (hexUpDigit_mem _))
        (mem_hexUp_isHex (hexUpDigit_mem _)), ← encodeUriComp, ihr]
      congr 1
      rw [hexVal_hexUpDigit, hexVal_hexUpDigit]
      have hdiv : c.toNat / 16 < 16 := by omega
      rw [Nat.mod_eq_of_lt hdiv]
      have : 16 * (c.toNat / 16) + c.toNat % 16 = c.toNat := by omega
      rw [this]
      exact Char.ofNat_toNat c

/-- Decoding is the identity on strings with no `%` (and no `+` in form
mode). -/
theorem pctDecode_id (ps : Bool) (l : List Char)
    (h : ∀ c ∈ l, c ≠ '%' ∧ ¬(ps = true ∧ c = '+')) : pctDecode ps l = l := by
  induction l with
  | nil => rfl
  | cons c cs ih =>
    obtain ⟨hp, hplus⟩ := h c (by simp)
    rw [pctDecode_cons_plain ps c cs hplus hp, ih fun x hx => h x (by simp [hx])]

/-! ### Facts about URL parsing and the extraction regex -/

/-- Splitting at a separator absent from the first part. -/
theorem splitFirstL_append (sep : Char) (a b : List Char)
    (h : ∀ c ∈ a, c ≠ sep) : splitFirstL sep (a ++ sep :: b) = some (a, b) := by
  induction a with
  | nil => simp [splitFirstL]
  | cons c cs ih =>
    have hc : c ≠ sep := h c (by simp)
    rw [List.cons_append, splitFirstL, if_neg hc,
      ih fun x hx => h x (by simp [hx])]

/-- A separator-free string splits into one piece. -/
theorem splitAllL_no_sep (sep : Char) (l : List Char) (h : ∀ c ∈ l, c ≠ sep) :
    splitAllL sep l = [l] := by
  induction l with
  | nil => rfl
  | cons c cs ih =>
    have step : splitAllL sep (c :: cs) =
        (if c = sep then [] :: splitAllL sep cs
         else
           match splitAllL sep cs with
           | [] => [[c]]
           | a :: rest => (c :: a) :: rest) := rfl
    rw [step, if_neg (h c (by simp)), ih fun x hx => h x (by simp [hx])]

/-- A whole match at the current position. -/
theorem findOtp_exact (prev : Option Char) (hprev : bdry prev = true)
    (otp : List Char) (h6 : otp.length = 6) (hA : otp.all isUpperAlnum = true) :
    findOtp prev otp = some otp := by
  cases otp with
  | nil => simp at h6
  | cons c cs =>
    have htake : (c :: cs).take 6 = c :: cs := List.take_of_length_le (by omega)
    have hdrop : (c :: cs).drop 6 = [] := List.drop_eq_nil_of_le (by omega)
    have hcond : (bdry prev && ((c :: cs).take 6).all isUpperAlnum &&
        (((c :: cs).take 6).length == 6) && bdry ((c :: cs).drop 6).head?) = true := by
      rw [htake, hdrop]
      simp only [hprev, hA, h6]
      rfl
    rw [findOtp, if_pos hcond, htake]

/-- The extraction regex finds exactly the code in a rendered default
message: the fixed prefix contains no six-character `[A-Z0-9]` run with a
left boundary, so the first match is the code itself. -/
theorem findOtp_message (otp : List Char) (h6 : otp.length = 6)
    (hA : otp.all isUpperAlnum = true) :
    findOtp none ("Check-in code: ".data ++ otp) = some otp :=
  findOtp_exact (some ' ') rfl otp h6 hA

/-- Substituting into the default template produces the fixed prefix
followed by the replacement. -/
theorem replaceFirst_template (rep : List Char) :
    replaceFirstL "Check-in code: {otp}".data "{otp}".data rep =
      "Check-in code: ".data ++ rep := by
  show "Check-in code: ".data ++ (rep ++ ([] : List Char)) = "Check-in code: ".data ++ rep
  rw [List.append_nil]

/-- A list starts with its own prefix. -/
theorem startsWithL_append (p r : List Char) : startsWithL (p ++ r) p = true := by
  rw [startsWithL, List.take_left]
  simp

/-- A special character absent from an encoded component. -/
theorem not_mem_encodeUriComp {sp : Char} (hu : isUnreservedCh sp = false)
    (hh : sp ∉ hexUpChars) (hp : sp ≠ '%') (l : List Char) :
    sp ∉ encodeUriComp l := by
  intro hmem
  rw [encodeUriComp, List.mem_flatMap] at hmem
  obtain ⟨c, -, hc⟩ := hmem
  exact encChar_not_special hu hh hp hc

/-- `cleanWhatsAppNumber` accepts a digits-only number of valid length with
no leading zero, unchanged. -/
theorem cleanNumber_ok (num : String) (hd : num.data.all isDigitCh = true)
    (h7 : 7 ≤ num.length) (h15 : num.length ≤ 15)
    (h0 : num.data.head? ≠ some '0') :
    cleanWhatsAppNumber num = .ok num := by
  have hlen : num.length = num.data.length := rfl
  have hne : num ≠ "" := by
    intro h
    rw [h] at h7
    simp [String.length] at h7
  have hfilter : num.data.filter isDigitCh = num.data :=
    List.filter_eq_self.mpr fun c hc => List.all_eq_true.mp hd c hc
  rw [cleanWhatsAppNumber, if_neg hne]
  simp only [hfilter]
  have hl : ¬(num.data.length < 7 || 15 < num.data.length) = true := by
    simp only [Bool.or_eq_true, decide_eq_true_eq]
    omega
  rw [if_neg hl, if_neg h0, strMk_data]

/-- Extraction from a rendered default-template URL recovers the code. -/
theorem extract_from_rendered (num : String) (otp : List Char)
    (hd : num.data.all isDigitCh = true)
    (h6 : otp.length = 6) (hA : otp.all isUpperAlnum = true) :
    extractOTPFromURL (String.mk ("https://wa.me/".data ++ num.data ++
      "?text=".data ++ encodeUriComp ("Check-in code: ".data ++ otp))) =
      some (String.mk otp) := by
  set enc := encodeUriComp ("Check-in code: ".data ++ otp) with henc
  have hmsg_ascii : ∀ c ∈ "Check-in code: ".data ++ otp, c.toNat < 128 := by
    intro c hc
    rcases List.mem_append.mp hc with h | h
    · fin_cases h <;> decide
    · exact upperAlnum_ascii (List.all_eq_true.mp hA c h)
  have hval : validateWhatsAppURL (String.mk ("https://wa.me/".data ++ num.data ++
      "?text=".data ++ enc)) = true := by
    rw [validateWhatsAppURL]
    have hform : (String.mk ("https://wa.me/".data ++ num.data ++
        "?text=".data ++ enc)).data =
        "https://wa.me/".data ++ (num.data ++ ("?text=".data ++ enc)) := by
      show "https://wa.me/".data ++ num.data ++ "?text=".data ++ enc =
        "https://wa.me/".data ++ (num.data ++ ("?text=".data ++ enc))
      simp [List.append_assoc]
    rw [hform, startsWithL_append]
    rfl
  have hq1 : ∀ c ∈ "https://wa.me/".data ++ num.data, c ≠ '?' := by
    intro c hc
    rcases List.mem_append.mp hc with h | h
    · fin_cases h <;> decide
    · exact ne_of_classes (List.all_eq_true.mp hd c h) (by decide)
  have hshape : "https://wa.me/".data ++ num.data ++ "?text=".data ++ enc =
      ("https://wa.me/".data ++ num.data) ++ '?' :: ("text=".data ++ enc) := by
    rw [List.append_assoc ("https://wa.me/".data ++ num.data) "?text=".data enc]
    rfl
  have hsplitAll : splitAllL '&' ("text=".data ++ enc) = ["text=".data ++ enc] := by
    apply splitAllL_no_sep
    intro c hc
    rcases List.mem_append.mp hc with h | h
    · fin_cases h <;> decide
    · intro hcc
      subst hcc
      exact not_mem_encodeUriComp (by decide) (by decide) (by decide) _ h
  have hsplitEq : splitFirstL '=' ("text=".data ++ enc) =
      some ("text".data, enc) := by
    show splitFirstL '=' ("text".data ++ '=' :: enc) = some ("text".data, enc)
    apply splitFirstL_append
    intro c hc
    fin_cases hc <;> decide
  have hdec : pctDecode true enc = "Check-in code: ".data ++ otp :=
    pctDecode_encode true _ hmsg_ascii
  have hdec2 : pctDecode false ("Check-in code: ".data ++ otp) =
      "Check-in code: ".data ++ otp := by
    apply pctDecode_id
    intro c hc
    refine ⟨?_, by simp⟩
    rcases List.mem_append.mp hc with h | h
    · fin_cases h <;> decide
    · exact ne_of_classes (List.all_eq_true.mp hA c h) (by decide)
  have step2 : getTextParam ("https://wa.me/".data ++ num.data ++
      "?text=".data ++ enc) = some ("Check-in code: ".data ++ otp) := by
    rw [hshape]
    unfold getTextParam
    rw [splitFirstL_append _ _ _ hq1]
    simp only [hsplitAll, List.findSome?_cons, hsplitEq]
    rw [if_pos (show pctDecode true "text".data = "text".data from rfl), hdec]
  have step1 : extractOTPFromURL (String.mk ("https://wa.me/".data ++ num.data ++
      "?text=".data ++ enc)) =
      (match getTextParam ("https://wa.me/".data ++ num.data ++ "?text=".data ++ enc) with
       | none => none
       | some text => (findOtp none (pctDecode false text)).map String.mk) := by
    unfold extractOTPFromURL
    rw [hval]
    rfl
  rw [step1, step2]
  show (findOtp none (pctDecode false ("Check-in code: ".data ++ otp))).map String.mk =
    some (String.mk otp)
  rw [hdec2, findOtp_message otp h6 hA]
  rfl

/-- C8: with the default message template and a valid configured number,
extracting the code from a rendered WhatsApp URL returns exactly the
original `[A-Z0-9]{6}` code. -/
theorem whatsapp_roundtrip (num otp : String) (b : Bool)
    (hd : num.data.all isDigitCh = true) (h7 : 7 ≤ num.length)
    (h15 : num.length ≤ 15) (h0 : num.data.head? ≠ some '0')
    (h6 : otp.length = 6) (hA : otp.data.all isUpperAlnum = true) :
    ∃ url, generateWhatsAppURL ⟨num, "Check-in code: {otp}", b⟩ otp = .ok url ∧
      extractOTPFromURL url = some otp := by
  have hne : otp ≠ "" := by
    intro h
    rw [h] at h6
    exact absurd h6 (by decide)
  have hnorm : jsNormalize otp = otp := jsNormalize_id hA
  have hcond : (otp.data.all isUpperAlnum && otp.length == 6) = true := by
    simp [hA, h6]
  have hclean := cleanNumber_ok num hd h7 h15 h0
  have hgen : generateWhatsAppURL ⟨num, "Check-in code: {otp}", b⟩ otp =
      .ok (String.mk ("https://wa.me/".data ++ num.data ++ "?text=".data ++
        encodeUriComp ("Check-in code: ".data ++ otp.data))) := by
    unfold generateWhatsAppURL
    rw [if_neg hne, hnorm]
    simp only [hcond, Bool.not_true, Bool.false_eq_true, if_false, hclean]
    exact congrArg
      (fun m => Except.ok (String.mk ("https://wa.me/".data ++ num.data ++
        "?text=".data ++ encodeUriComp m)))
      (replaceFirst_template otp.data)
  refine ⟨_, hgen, ?_⟩
  have hext := extract_from_rendered num otp.data hd h6 hA
  rw [hext, strMk_data]

/-- Witness for `whatsapp_roundtrip` at a concrete number and code. -/
theorem whatsapp_roundtrip_witness :
    "15551234567".data.all isDigitCh = true ∧
    7 ≤ "15551234567".length ∧ "15551234567".length ≤ 15 ∧
    "15551234567".data.head? ≠ some '0' ∧
    "XY12AB".length = 6 ∧ "XY12AB".data.all isUpperAlnum = true ∧
    ∃ url,
      generateWhatsAppURL ⟨"15551234567", "Check-in code: {otp}", true⟩ "XY12AB" =
        .ok url ∧
      extractOTPFromURL url = some "XY12AB" :=
  ⟨by decide, by decide, by decide, by decide, by decide, by decide,
   whatsapp_roundtrip "15551234567" "XY12AB" true (by decide) (by decide)
     (by decide) (by decide) (by decide) (by decide)⟩

/-- C9 counterexample to the claim as stated: constructing the service with
a malformed target number and a template without the placeholder succeeds —
the constructor validates nothing — and the number error is raised only
later, at render time. -/
theorem whatsapp_construct_cex :
    wsConstruct "15551234567" ⟨some "0123", some "hello", none⟩ =
      .ok ⟨"0123", "hello", true⟩ ∧
    generateWhatsAppURL ⟨"0123", "hello", true⟩ "ABC123" =
      .error "WhatsApp number must be 7-15 digits long" := by
  exact ⟨rfl, rfl⟩

/-- C9 (amended): construction never fails; a malformed configured number
raises when a URL is rendered (`cleanWhatsAppNumber` inside
`generateWhatsAppURL`), and `updateConfig` — not the constructor — rejects a
malformed number and a template missing the `{otp}` placeholder. -/
theorem whatsapp_validation_deferred (envPhone : String) (c : WSConfig) :
    (∃ st, wsConstruct envPhone c = .ok st) ∧
    (∀ (st : WSState) (otp e : String),
      cleanWhatsAppNumber st.whatsappNumber = .error e →
      otp ≠ "" →
      ((jsNormalize otp).data.all isUpperAlnum &&
        (jsNormalize otp).length == 6) = true →
      generateWhatsAppURL st otp = .error e) ∧
    (∀ (st : WSState) (tpl : String), tpl ≠ "" →
      hasSubstrL tpl.data "{otp}".data = false →
      updateConfig st ⟨none, some tpl, none⟩ =
        .error "Message template must include {otp} placeholder") ∧
    (∀ (st : WSState) (nstr e : String), nstr ≠ "" →
      cleanWhatsAppNumber nstr = .error e →
      updateConfig st ⟨some nstr, none, none⟩ = .error e) := by
  refine ⟨⟨_, rfl⟩, ?_, ?_, ?_⟩
  · intro st otp e herr hne hfmt
    unfold generateWhatsAppURL
    rw [if_neg hne]
    simp only [hfmt, Bool.not_true, Bool.false_eq_true, if_false, herr]
  · intro st tpl htne htpl
    simp only [updateConfig, truthyStr, if_neg htne, htpl, Bool.false_eq_true,
      if_false]
    rfl
  · intro st nstr e hne herr
    simp only [updateConfig, truthyStr, if_neg hne, herr]
    rfl

/-- Witness for `whatsapp_validation_deferred` at concrete configurations. -/
theorem whatsapp_validation_deferred_witness :
    (∃ st, wsConstruct "15551234567" ⟨some "0123", some "hello", none⟩ = .ok st) ∧
    generateWhatsAppURL ⟨"0123", "Check-in code: {otp}", true⟩ "XY12AB" =
      .error "WhatsApp number must be 7-15 digits long" ∧
    updateConfig ⟨"15551234567", "Check-in code: {otp}", true⟩ ⟨none, some "hi", none⟩ =
      .error "Message template must include {otp} placeholder" ∧
    updateConfig ⟨"15551234567", "Check-in code: {otp}", true⟩ ⟨some "0123", none, none⟩ =
      .error "WhatsApp number must be 7-15 digits long" :=
  ⟨(whatsapp_validation_deferred "15551234567" ⟨some "0123", some "hello", none⟩).1,
   (whatsapp_validation_deferred "x" ⟨none, none, none⟩).2.1
     ⟨"0123", "Check-in code: {otp}", true⟩ "XY12AB"
     "WhatsApp number must be 7-15 digits long" rfl (by decide) (by decide),
   (whatsapp_validation_deferred "x" ⟨none, none, none⟩).2.2.1
     ⟨"15551234567", "Check-in code: {otp}", true⟩ "hi" (by decide) (by decide),
   (whatsapp_validation_deferred "x" ⟨none, none, none⟩).2.2.2
     ⟨"15551234567", "Check-in code: {otp}", true⟩ "0123"
     "WhatsApp number must be 7-15 digits long" (by decide) rfl⟩
